import Mathlib

/-!
Verification of the s3tool CLI (src/main.py): a shallow embedding of its
pure logic — object-key construction, listing-prefix normalization,
download destination resolution, connection-parameter resolution, the
missing-parameter check, and the first-run `.env` persistence — together
with theorems settling the specification's claims about it.

Effects are made explicit: the current date and hostname are parameters,
the filesystem is abstracted by an `isDir` predicate and a current working
directory string, bucket contents by a list of keys, and exceptions by
`Except`.
-/

namespace S3Tool

/-- Truthiness of a Python string: non-empty. -/
def strTruthy (s : String) : Bool := s != ""

/-- Python `str.startswith`, modelled on the character list. -/
def strStartsWith (s pre : String) : Bool := pre.data.isPrefixOf s.data

/-- Python `str.endswith`, modelled on the character list. -/
def strEndsWith (s suf : String) : Bool := suf.data.isSuffixOf s.data

/-- `os.path.basename` for POSIX paths: everything after the last `'/'`
(`p[p.rfind('/') + 1:]`). -/
def basename (p : String) : String :=
  String.mk ((p.data.reverse.takeWhile (fun c => c != '/')).reverse)

/-- Two-argument `os.path.join` for POSIX paths: an absolute second
component replaces the first, otherwise the parts are glued with a `'/'`
unless the first already ends in one (or is empty). -/
def joinPath (a b : String) : String :=
  if strStartsWith b "/" then b
  else if a == "" || strEndsWith a "/" then a ++ b
  else a ++ "/" ++ b

/-- Strip trailing `'/'` characters (`str.rstrip('/')`). -/
def rstripSlashes (s : String) : String :=
  String.mk ((s.data.reverse.dropWhile (fun c => c == '/')).reverse)

/-- `os.path.dirname` for POSIX paths: take `p[:p.rfind('/') + 1]`, then
strip trailing slashes unless the result consists only of slashes. -/
def dirname (p : String) : String :=
  let head := String.mk ((p.data.reverse.dropWhile (fun c => c != '/')).reverse)
  if head.data.all (fun c => c == '/') then head else rstripSlashes head

/-- `Bucket.build_object_name` (src/main.py lines 34–41).  The current
date (already formatted `YYYY-MM-DD`) and the hostname are passed in
explicitly.  When `objectName` is empty it is replaced by the basename of
`filePath`; the `now/hostname/` prefix is then applied unconditionally. -/
def buildObjectName (now hostname filePath objectName : String) : String :=
  let objName := if objectName = "" then basename filePath else objectName
  now ++ "/" ++ hostname ++ "/" ++ objName

/-- `Bucket.ls` (src/main.py lines 43–52) on a bucket whose object keys
are `keys`.  A non-empty `directory` is normalized to end in `'/'` and
used as a key filter (`objects.filter(Prefix=...)` keeps the keys that
start with the prefix); an empty `directory` lists everything. -/
def ls (keys : List String) (directory : String) : List String :=
  if directory ≠ "" then
    let pre := if directory == "" || strEndsWith directory "/" then directory
               else directory ++ "/"
    keys.filter (fun k => strStartsWith k pre)
  else keys

end S3Tool

namespace S3Tool

/-- The final local path computed by `Bucket.download_file`
(src/main.py lines 62–69): an empty destination defaults to
`join(cwd, basename(key))`; otherwise an existing directory receives the
file under its basename and any other path is used as given. -/
def downloadDestination (isDir : String → Bool) (cwd fileName destination : String) : String :=
  if destination = "" then joinPath cwd (basename fileName)
  else if isDir destination then joinPath destination (basename fileName)
  else destination

/-- A filesystem effect performed by `download_file`. -/
inductive FsEvent where
  | makeDirs (dir : String)
  | writeFile (path : String)
  deriving DecidableEq

/-- The filesystem effects of `Bucket.download_file` in order
(src/main.py lines 71–72): `os.makedirs(os.path.dirname(destination),
exist_ok=True)` followed by the download writing `destination`. -/
def downloadEvents (isDir : String → Bool) (cwd fileName destination : String) : List FsEvent :=
  let d := downloadDestination isDir cwd fileName destination
  [FsEvent.makeDirs (dirname d), FsEvent.writeFile d]

end S3Tool

namespace S3Tool

/-- The four S3 connection parameters; `none` is Python's `None`
(flag not given / variable not set). -/
structure Params where
  accessKey : Option String
  secretKey : Option String
  bucketName : Option String
  url : Option String
  deriving DecidableEq

/-- Resolution of each parameter by `argparse` (src/main.py lines
103–106): the CLI flag when supplied, else the value loaded from the
`.env` file, field by field. -/
def resolveParams (cli envp : Params) : Params :=
  { accessKey := cli.accessKey <|> envp.accessKey
    secretKey := cli.secretKey <|> envp.secretKey
    bucketName := cli.bucketName <|> envp.bucketName
    url := cli.url <|> envp.url }

/-- The `s3_params` dict (src/main.py lines 133–138) in insertion
order. -/
def s3ParamsList (p : Params) : List (String × Option String) :=
  [("ACCESS_KEY", p.accessKey), ("SECRET_KEY", p.secretKey),
   ("BUCKET_NAME", p.bucketName), ("URL", p.url)]

/-- `missing_s3_params` (src/main.py line 141): the keys whose value
`is None`. -/
def missingS3Params (p : Params) : List String :=
  ((s3ParamsList p).filter (fun kv => kv.2.isNone)).map Prod.fst

/-- Truthiness of an optional Python string: `None` and `''` are falsy. -/
def optTruthy : Option String → Bool
  | none => false
  | some v => v != ""

/-- One conditional `f.write(f"KEY={value}\n")` line of the `.env` writer
(src/main.py lines 158–161): written only when the value is truthy. -/
def envEntry (key : String) (v : Option String) : List (String × String) :=
  if optTruthy v then [(key, v.getD "")] else []

/-- The `key=value` entries the `.env` writer emits (src/main.py lines
157–161). -/
def envFileEntries (p : Params) : List (String × String) :=
  envEntry "ACCESS_KEY" p.accessKey ++ envEntry "SECRET_KEY" p.secretKey ++
  envEntry "BUCKET_NAME" p.bucketName ++ envEntry "URL" p.url

/-- Outcome of the setup phase (src/main.py lines 133–161): either
`sys.exit` with a message and exit code before any connection is
attempted, or proceed to the connection with the resolved parameters,
having possibly written the `.env` file. -/
inductive SetupResult where
  | missingExit (message : String) (exitCode : Nat)
  | proceed (p : Params) (written : Option (List (String × String)))
  deriving DecidableEq

/-- The setup phase: resolve parameters, exit with code 1 listing the
missing ones if any (src/main.py lines 141–145), otherwise write the
`.env` file when it does not exist and some resolved parameter differs
from the loaded one (lines 148–161), and proceed. -/
def mainSetup (cli envp : Params) (envFileExists : Bool) : SetupResult :=
  let p := resolveParams cli envp
  let missing := missingS3Params p
  if missing ≠ [] then
    SetupResult.missingExit
      ("Error: Missing required S3 connection parameters: " ++
        String.intercalate ", " missing) 1
  else
    let cliProvided := (p.bucketName != envp.bucketName) || (p.accessKey != envp.accessKey)
      || (p.secretKey != envp.secretKey) || (p.url != envp.url)
    let written := if !envFileExists && cliProvided then some (envFileEntries p) else none
    SetupResult.proceed p written

/-- Whether the run writes the `.env` config file. -/
def envFileWritten (cli envp : Params) (envFileExists : Bool) : Bool :=
  match mainSetup cli envp envFileExists with
  | SetupResult.proceed _ (some _) => true
  | _ => false

/-- The top-level `try`/`except` (src/main.py lines 164–199): the
connection is attempted, then the dispatched operation; any raised
exception is printed with the action name and the process exits with
code 1, otherwise it exits with code 0.  Returns the printed error lines
and the exit code. -/
def mainAction (action : String) (conn oper : Except String Unit) : List String × Nat :=
  match conn.bind (fun _ => oper) with
  | Except.ok _ => ([], 0)
  | Except.error e => (["Error during action '" ++ action ++ "': " ++ e], 1)

end S3Tool

namespace S3Tool

/-! ## Helper lemmas -/

lemma basename_no_lead_slash (k : String) : strStartsWith (basename k) "/" = false := by
  simp only [strStartsWith, basename]
  cases ht : (k.data.reverse.takeWhile (fun c => c != '/')).reverse with
  | nil => simp [List.isPrefixOf, ht]
  | cons c rest =>
    have hc : c ∈ (k.data.reverse.takeWhile (fun c => c != '/')) := by
      have : c ∈ (k.data.reverse.takeWhile (fun c => c != '/')).reverse := by
        rw [ht]; exact List.mem_cons_self c rest
      simpa using this
    have hcne : (c != '/') = true := List.mem_takeWhile_imp (p := fun c => c != '/') hc
    have hcc : c ≠ '/' := by simpa using hcne
    have hne : ('/' == c) = false := by
      rw [beq_eq_false_iff_ne]
      exact fun h => hcc h.symm
    simp [List.isPrefixOf, ht, hne]

lemma joinPath_eq_concat (a b : String) (hb : strStartsWith b "/" = false)
    (ha1 : a ≠ "") (ha2 : strEndsWith a "/" = false) :
    joinPath a b = a ++ "/" ++ b := by
  have hba : (a == "") = false := by simp [ha1]
  simp [joinPath, hb, hba, ha2]

lemma mem_missingS3Params (p : Params) (k : String) :
    k ∈ missingS3Params p ↔
      (k = "ACCESS_KEY" ∧ p.accessKey = none) ∨ (k = "SECRET_KEY" ∧ p.secretKey = none) ∨
      (k = "BUCKET_NAME" ∧ p.bucketName = none) ∨ (k = "URL" ∧ p.url = none) := by
  rcases p with ⟨a, s, b, u⟩
  rcases a <;> rcases s <;> rcases b <;> rcases u <;>
    simp [missingS3Params, s3ParamsList]

lemma missingS3Params_ne_nil (p : Params) :
    missingS3Params p ≠ [] ↔
      (p.accessKey = none ∨ p.secretKey = none ∨ p.bucketName = none ∨ p.url = none) := by
  rcases p with ⟨a, s, b, u⟩
  rcases a <;> rcases s <;> rcases b <;> rcases u <;>
    simp [missingS3Params, s3ParamsList]

lemma mainSetup_exit_of_missing (cli envp : Params) (fs : Bool)
    (h : missingS3Params (resolveParams cli envp) ≠ []) :
    mainSetup cli envp fs = SetupResult.missingExit
      ("Error: Missing required S3 connection parameters: " ++
        String.intercalate ", " (missingS3Params (resolveParams cli envp))) 1 := by
  simp [mainSetup, h]

end S3Tool

namespace S3Tool

/-! ## Claim theorems -/

/-- Claim C1, counterexample: `build_object_name` does not return a
non-empty explicit `object_name` verbatim — the date/hostname prefix is
applied to it as well. -/
theorem buildObjectName_not_verbatim :
    buildObjectName "2026-01-02" "host1" "/tmp/report.txt" "custom-name" ≠ "custom-name" ∧
    buildObjectName "2026-01-02" "host1" "/tmp/report.txt" "custom-name" =
      "2026-01-02/host1/custom-name" := by
  constructor
  · decide
  · decide

/-- Claim C1, amended: for every non-empty `object_name`,
`build_object_name(file_path, object_name)` returns
`{date}/{hostname}/{object_name}` — the explicit name replaces only the
basename component, and the date/hostname prefix is always applied. -/
theorem buildObjectName_explicit (now hostname filePath objectName : String)
    (h : objectName ≠ "") :
    buildObjectName now hostname filePath objectName =
      now ++ "/" ++ hostname ++ "/" ++ objectName := by
  simp [buildObjectName, h]

theorem buildObjectName_explicit_spot :
    ("custom" : String) ≠ "" ∧
    buildObjectName "2026-01-02" "h" "/a/b.txt" "custom" =
      "2026-01-02" ++ "/" ++ "h" ++ "/" ++ "custom" :=
  ⟨by decide, buildObjectName_explicit "2026-01-02" "h" "/a/b.txt" "custom" (by decide)⟩

/-- Claim C2: with no explicit object name, `build_object_name(file_path)`
returns exactly `{date}/{hostname}/{basename(file_path)}`. -/
theorem buildObjectName_default (now hostname filePath : String) :
    buildObjectName now hostname filePath "" =
      now ++ "/" ++ hostname ++ "/" ++ basename filePath := by
  simp [buildObjectName]

/-- Claim C3: for every non-empty prefix that does not end in `'/'`,
listing with it equals listing with the prefix plus a trailing slash —
`ls` normalizes the directory argument before filtering. -/
theorem ls_trailing_slash (keys : List String) (d : String)
    (h1 : d ≠ "") (h2 : strEndsWith d "/" = false) :
    ls keys d = ls keys (d ++ "/") := by
  have hne : d ++ "/" ≠ "" := by
    intro h
    have hd : (d ++ "/").data = ("" : String).data := by rw [h]
    simp [String.data] at hd
  have hse : strEndsWith (d ++ "/") "/" = true := by
    have h3 : ("/" : String).data <:+ (d ++ "/").data := by
      show ['/'] <:+ d.data ++ ['/']
      exact List.suffix_append d.data ['/']
    rw [strEndsWith, List.isSuffixOf_iff_suffix]
    exact h3
  have hb1 : (d == "") = false := by simp [h1]
  have hb2 : ((d ++ "/") == "") = false := by simp [hne]
  simp [ls, h1, hne, hb1, hb2, h2, hse]

theorem ls_trailing_slash_spot :
    ("dir" : String) ≠ "" ∧ strEndsWith "dir" "/" = false ∧
    ls ["dir/a", "dirx", "dir/b"] "dir" = ls ["dir/a", "dirx", "dir/b"] ("dir" ++ "/") :=
  ⟨by decide, by decide,
   ls_trailing_slash ["dir/a", "dirx", "dir/b"] "dir" (by decide) (by decide)⟩

/-- Claim C6: for a non-empty destination, `download_file` places the
object at `join(destination, basename(key))` when the destination is an
existing directory (plain concatenation `destination ++ "/" ++ basename`
when the destination does not already end in a slash), uses the
destination verbatim otherwise, and performs `makedirs` on the dirname of
the final destination before the write. -/
theorem download_destination_rules (isDir : String → Bool) (cwd fileName destination : String)
    (h : destination ≠ "") :
    (isDir destination = true →
      downloadDestination isDir cwd fileName destination =
        joinPath destination (basename fileName)) ∧
    (isDir destination = true → strEndsWith destination "/" = false →
      downloadDestination isDir cwd fileName destination =
        destination ++ "/" ++ basename fileName) ∧
    (isDir destination = false →
      downloadDestination isDir cwd fileName destination = destination) ∧
    downloadEvents isDir cwd fileName destination =
      [FsEvent.makeDirs (dirname (downloadDestination isDir cwd fileName destination)),
       FsEvent.writeFile (downloadDestination isDir cwd fileName destination)] := by
  refine ⟨?_, ?_, ?_, ?_⟩
  · intro hd; simp [downloadDestination, h, hd]
  · intro hd hs
    have h1 : downloadDestination isDir cwd fileName destination =
        joinPath destination (basename fileName) := by
      simp [downloadDestination, h, hd]
    rw [h1, joinPath_eq_concat destination (basename fileName)
      (basename_no_lead_slash fileName) h hs]
  · intro hd; simp [downloadDestination, h, hd]
  · rfl

theorem download_destination_rules_spot :
    ("/tmp" : String) ≠ "" ∧
    ((fun d => d == "/tmp") "/tmp" = true →
      downloadDestination (fun d => d == "/tmp") "/home" "k/f.txt" "/tmp" =
        joinPath "/tmp" (basename "k/f.txt")) :=
  ⟨by decide,
   (download_destination_rules (fun d => d == "/tmp") "/home" "k/f.txt" "/tmp" (by decide)).1⟩

/-- Claim C10: with no destination given, `download_file` resolves the
destination to `join(cwd, basename(key))` — for every state of the
filesystem (`isDir`), so the directory rule never alters the defaulted
path — and that equals `{cwd}/{basename(key)}` whenever the working
directory is non-empty and has no trailing slash. -/
theorem download_default_destination (isDir : String → Bool) (cwd fileName : String) :
    downloadDestination isDir cwd fileName "" = joinPath cwd (basename fileName) ∧
    (strEndsWith cwd "/" = false → cwd ≠ "" →
      downloadDestination isDir cwd fileName "" = cwd ++ "/" ++ basename fileName) := by
  have h1 : downloadDestination isDir cwd fileName "" = joinPath cwd (basename fileName) := by
    simp [downloadDestination]
  refine ⟨h1, ?_⟩
  intro hs hne
  rw [h1, joinPath_eq_concat cwd (basename fileName) (basename_no_lead_slash fileName) hne hs]

theorem download_default_destination_spot :
    strEndsWith "/home" "/" = false ∧ ("/home" : String) ≠ "" ∧
    downloadDestination (fun _ => true) "/home" "k/f.txt" "" =
      "/home" ++ "/" ++ basename "k/f.txt" :=
  ⟨by decide, by decide,
   (download_default_destination (fun _ => true) "/home" "k/f.txt").2 (by decide) (by decide)⟩

end S3Tool

namespace S3Tool

/-- Claim C4: the program exits with code 1, listing exactly the absent
parameters in the error message, if and only if some resolved connection
parameter is absent; the exit happens in the setup phase (a
`SetupResult.missingExit`), before any connection is attempted. -/
theorem missing_params_exit (cli envp : Params) (fs : Bool) :
    ((∃ m, mainSetup cli envp fs = SetupResult.missingExit m 1) ↔
      ((resolveParams cli envp).accessKey = none ∨ (resolveParams cli envp).secretKey = none ∨
       (resolveParams cli envp).bucketName = none ∨ (resolveParams cli envp).url = none)) ∧
    (∀ k, k ∈ missingS3Params (resolveParams cli envp) ↔
      ((k = "ACCESS_KEY" ∧ (resolveParams cli envp).accessKey = none) ∨
       (k = "SECRET_KEY" ∧ (resolveParams cli envp).secretKey = none) ∨
       (k = "BUCKET_NAME" ∧ (resolveParams cli envp).bucketName = none) ∨
       (k = "URL" ∧ (resolveParams cli envp).url = none))) ∧
    (missingS3Params (resolveParams cli envp) ≠ [] →
      mainSetup cli envp fs = SetupResult.missingExit
        ("Error: Missing required S3 connection parameters: " ++
          String.intercalate ", " (missingS3Params (resolveParams cli envp))) 1) := by
  refine ⟨?_, fun k => mem_missingS3Params (resolveParams cli envp) k,
    mainSetup_exit_of_missing cli envp fs⟩
  rw [← missingS3Params_ne_nil]
  constructor
  · rintro ⟨m, hm⟩
    intro hnil
    simp [mainSetup, hnil] at hm
  · intro hne
    exact ⟨_, mainSetup_exit_of_missing cli envp fs hne⟩

theorem missing_params_exit_spot :
    missingS3Params (resolveParams ⟨some "A", some "S", none, none⟩
      ⟨none, none, some "B", none⟩) ≠ [] ∧
    mainSetup ⟨some "A", some "S", none, none⟩ ⟨none, none, some "B", none⟩ true =
      SetupResult.missingExit
        ("Error: Missing required S3 connection parameters: " ++
          String.intercalate ", " (missingS3Params (resolveParams ⟨some "A", some "S", none, none⟩
            ⟨none, none, some "B", none⟩))) 1 :=
  ⟨by decide,
   (missing_params_exit ⟨some "A", some "S", none, none⟩ ⟨none, none, some "B", none⟩ true).2.2
     (by decide)⟩

/-- Claim C5, counterexample: with no config file present and
`--access_key AK` as the only available parameter, the resolved access
key differs from the loaded one, yet the config file is not written — the
program exits at the missing-parameter check first.  This falsifies the
claimed "if and only if". -/
theorem env_write_skipped_cex :
    (resolveParams ⟨some "AK", none, none, none⟩ ⟨none, none, none, none⟩).accessKey ≠
      (Params.mk none none none none).accessKey ∧
    envFileWritten ⟨some "AK", none, none, none⟩ ⟨none, none, none, none⟩ false = false := by
  decide

/-- Claim C5, amended: the config file is written if and only if all four
resolved parameters are present (the missing-parameter check passes), no
config file exists, and at least one resolved parameter differs from the
previously loaded value. -/
theorem env_write_iff (cli envp : Params) (fs : Bool) :
    envFileWritten cli envp fs = true ↔
      (missingS3Params (resolveParams cli envp) = [] ∧ fs = false ∧
        ((resolveParams cli envp).bucketName ≠ envp.bucketName ∨
         (resolveParams cli envp).accessKey ≠ envp.accessKey ∨
         (resolveParams cli envp).secretKey ≠ envp.secretKey ∨
         (resolveParams cli envp).url ≠ envp.url)) := by
  by_cases hm : missingS3Params (resolveParams cli envp) = []
  · by_cases hcp : ((resolveParams cli envp).bucketName ≠ envp.bucketName ∨
        (resolveParams cli envp).accessKey ≠ envp.accessKey ∨
        (resolveParams cli envp).secretKey ≠ envp.secretKey ∨
        (resolveParams cli envp).url ≠ envp.url)
    · cases fs <;> simp [envFileWritten, mainSetup, hm, bne_iff_ne, or_assoc, hcp]
    · cases fs <;> simp [envFileWritten, mainSetup, hm, bne_iff_ne, or_assoc, hcp]
  · simp [envFileWritten, mainSetup, hm]

theorem env_write_iff_spot :
    envFileWritten ⟨some "A", some "S", some "B", some "U"⟩ ⟨none, none, none, none⟩ false = true :=
  (env_write_iff ⟨some "A", some "S", some "B", some "U"⟩ ⟨none, none, none, none⟩ false).mpr
    (by decide)

end S3Tool

namespace S3Tool

/-- Claim C7: for every action, an exception raised during connection or
operation execution is caught at the top level, printed with the action
name as context, and the process exits with code 1; when both complete
without exception the process exits with code 0 (and the exit code is
never anything else). -/
theorem top_level_error_handling (a : String) (conn oper : Except String Unit) :
    (conn = Except.ok () → oper = Except.ok () → mainAction a conn oper = ([], 0)) ∧
    (∀ e, conn = Except.error e →
      mainAction a conn oper = (["Error during action '" ++ a ++ "': " ++ e], 1)) ∧
    (∀ e, conn = Except.ok () → oper = Except.error e →
      mainAction a conn oper = (["Error during action '" ++ a ++ "': " ++ e], 1)) ∧
    ((mainAction a conn oper).2 = 0 ∨ (mainAction a conn oper).2 = 1) := by
  cases conn <;> cases oper <;> simp [mainAction, Except.bind]

theorem top_level_error_handling_spot :
    mainAction "upload" (Except.error "boom") (Except.ok ()) =
      (["Error during action 'upload': boom"], 1) :=
  (top_level_error_handling "upload" (Except.error "boom") (Except.ok ())).2.1 "boom" rfl

/-- Claim C8: for each connection parameter independently, the resolved
value is the CLI flag when supplied and the environment/config value
otherwise, and a parameter resolving to absent makes the setup exit with
code 1. -/
theorem param_precedence (cli envp : Params) :
    (∀ v, cli.accessKey = some v → (resolveParams cli envp).accessKey = some v) ∧
    (cli.accessKey = none → (resolveParams cli envp).accessKey = envp.accessKey) ∧
    (∀ v, cli.secretKey = some v → (resolveParams cli envp).secretKey = some v) ∧
    (cli.secretKey = none → (resolveParams cli envp).secretKey = envp.secretKey) ∧
    (∀ v, cli.bucketName = some v → (resolveParams cli envp).bucketName = some v) ∧
    (cli.bucketName = none → (resolveParams cli envp).bucketName = envp.bucketName) ∧
    (∀ v, cli.url = some v → (resolveParams cli envp).url = some v) ∧
    (cli.url = none → (resolveParams cli envp).url = envp.url) ∧
    (((resolveParams cli envp).accessKey = none ∨ (resolveParams cli envp).secretKey = none ∨
      (resolveParams cli envp).bucketName = none ∨ (resolveParams cli envp).url = none) →
      ∀ fs, ∃ m, mainSetup cli envp fs = SetupResult.missingExit m 1) := by
  refine ⟨?_, ?_, ?_, ?_, ?_, ?_, ?_, ?_, ?_⟩
  · intro v h; simp [resolveParams, h]
  · intro h; simp [resolveParams, h]
  · intro v h; simp [resolveParams, h]
  · intro h; simp [resolveParams, h]
  · intro v h; simp [resolveParams, h]
  · intro h; simp [resolveParams, h]
  · intro v h; simp [resolveParams, h]
  · intro h; simp [resolveParams, h]
  · intro h fs
    have hne : missingS3Params (resolveParams cli envp) ≠ [] :=
      (missingS3Params_ne_nil (resolveParams cli envp)).mpr h
    exact ⟨_, mainSetup_exit_of_missing cli envp fs hne⟩

theorem param_precedence_spot :
    (Params.mk (some "cliA") none none none).accessKey = some "cliA" ∧
    (resolveParams ⟨some "cliA", none, none, none⟩
      ⟨some "envA", some "S", some "B", some "U"⟩).accessKey = some "cliA" ∧
    (Params.mk (some "cliA") none none none).secretKey = none ∧
    (resolveParams ⟨some "cliA", none, none, none⟩
      ⟨some "envA", some "S", some "B", some "U"⟩).secretKey =
      (Params.mk (some "envA") (some "S") (some "B") (some "U")).secretKey :=
  ⟨rfl,
   (param_precedence ⟨some "cliA", none, none, none⟩
     ⟨some "envA", some "S", some "B", some "U"⟩).1 "cliA" rfl,
   rfl,
   (param_precedence ⟨some "cliA", none, none, none⟩
     ⟨some "envA", some "S", some "B", some "U"⟩).2.2.2.1 rfl⟩

/-- Claim C9: a connection parameter supplied as the empty string counts
as present — it never appears among the missing parameters, and with the
other three present the missing-parameter check passes — yet the `.env`
writer skips it, so it is never persisted.  (Stated for the access key;
the check and the writer treat the four parameters alike.) -/
theorem empty_string_param (p : Params) (h : p.accessKey = some "") :
    ("ACCESS_KEY" ∉ missingS3Params p) ∧
    (p.secretKey ≠ none → p.bucketName ≠ none → p.url ≠ none → missingS3Params p = []) ∧
    ("ACCESS_KEY" ∉ (envFileEntries p).map Prod.fst) := by
  rcases p with ⟨a, s, b, u⟩
  simp only at h
  subst h
  refine ⟨?_, ?_, ?_⟩
  · rcases s <;> rcases b <;> rcases u <;> simp [missingS3Params, s3ParamsList]
  · intro hs hb hu
    rcases s with _ | s
    · exact absurd rfl hs
    rcases b with _ | b
    · exact absurd rfl hb
    rcases u with _ | u
    · exact absurd rfl hu
    simp [missingS3Params, s3ParamsList]
  · rcases s <;> rcases b <;> rcases u <;>
      simp [envFileEntries, envEntry, optTruthy]

theorem empty_string_param_spot :
    (Params.mk (some "") (some "S") (some "B") (some "U")).accessKey = some "" ∧
    "ACCESS_KEY" ∉ missingS3Params ⟨some "", some "S", some "B", some "U"⟩ ∧
    "ACCESS_KEY" ∉ (envFileEntries ⟨some "", some "S", some "B", some "U"⟩).map Prod.fst :=
  ⟨rfl,
   (empty_string_param ⟨some "", some "S", some "B", some "U"⟩ rfl).1,
   (empty_string_param ⟨some "", some "S", some "B", some "U"⟩ rfl).2.2⟩

end S3Tool
